import Mathlib

/-!
Shallow embedding of the heart-disease MLOps pipeline
(`src/data/preprocessing.py` and `src/models/load_model.py`).

Conventions of the embedding:
* pandas/numpy scalar values are modelled by `Cell` (a rational number, a
  string, or the null marker `NaN`); real numbers are modelled by `Rat`,
  which is exact where the Python code uses floats — none of the verified
  claims depend on rounding;
* a pandas `DataFrame` is an ordered list of named columns of cells;
* Python exceptions are modelled by `Except String`;
* the artifact directory is modelled by a list of `ArtifactFile` entries
  (filename, filesystem modification time, and — for JSON files — the
  parse outcome of their content).
-/

namespace HeartPipeline

/-- A pandas cell: a numeric value, a string token, or the null marker
(`np.nan`). -/
inductive Cell where
  | num (q : Rat)
  | str (s : String)
  | null
deriving Repr, DecidableEq

/-- A pandas `DataFrame`: ordered named columns, each a list of cells. -/
abbrev DataFrame := List (String × List Cell)

/-- Apply a fallible operation to each element, left to right, stopping at
the first failure (the way a raised exception aborts a Python loop). -/
def mapExcept {α β : Type} (f : α → Except String β) :
    List α → Except String (List β)
  | [] => .ok []
  | a :: as =>
    match f a with
    | .error e => .error e
    | .ok b =>
      match mapExcept f as with
      | .error e => .error e
      | .ok bs => .ok (b :: bs)

/-- Column names of a dataframe, in order. -/
def DataFrame.colNames (df : DataFrame) : List String := df.map Prod.fst

/-- Look up a column by name (first match, like pandas label lookup). -/
def DataFrame.col (df : DataFrame) (name : String) : Option (List Cell) :=
  (df.find? fun c => c.fst = name).map Prod.snd

/-! ## `clean_data` (src/data/preprocessing.py lines 79-111) -/

/-- `df.drop('source', axis=1)`: remove the column named `source`. -/
def dropSource (df : DataFrame) : DataFrame :=
  df.filter fun c => c.fst ≠ "source"

/-- One cell of `(df_clean['target'] > 0).astype(int)`.  On a numeric cell
pandas compares and casts the Boolean to `0`/`1`; `NaN > 0` is `False`, so a
null cell becomes `0`; comparing a string with `0` raises `TypeError`. -/
def binarizeCell : Cell → Except String Cell
  | .num q => .ok (.num (if 0 < q then 1 else 0))
  | .null => .ok (.num 0)
  | .str s => .error ("TypeError: not supported between str and int: " ++ s)

/-- `df_clean['target'] = (df_clean['target'] > 0).astype(int)`, applied only
when a `target` column is present. -/
def binarizeTarget (df : DataFrame) : Except String DataFrame :=
  if (df.find? fun c => c.fst = "target").isSome then
    mapExcept (fun c =>
      if c.fst = "target" then
        (mapExcept binarizeCell c.snd).map fun cells => (c.fst, cells)
      else .ok c) df
  else .ok df

/-- One cell of `df_clean.replace([-9.0, -9, '?'], np.nan)`. -/
def replaceSentinel : Cell → Cell
  | .num q => if q = -9 then .null else .num q
  | .str s => if s = "?" then .null else .str s
  | .null => .null

/-- Decimal parser modelling `pd.to_numeric(errors='coerce')` on a string
token: optional surrounding whitespace, an optional sign, a decimal
mantissa (`63`, `2.3`, `.5`, `1.`), and an optional `e`/`E` exponent with
an optional sign — all exact over `Rat`.  `nan` is outside this grammar
and so coerces to the null marker, which is also pandas' result (`NaN` is
the null marker of the embedding).  IEEE-infinity spellings (`inf`,
`infinity`) denote values outside the rational cell domain; they also fall
to null here, so the cleaning theorem hypothesizes them absent (see
`Cell.isInfCell`).  All other non-numeric tokens coerce to null. -/
def parseDecimal? (s : String) : Option Rat :=
  let mantissa (t : List Char) : Option (Rat × List Char) :=
    let intPart := t.takeWhile Char.isDigit
    let rest := t.drop intPart.length
    let iv : Nat := intPart.foldl (fun a c => a * 10 + (c.toNat - 48)) 0
    match rest with
    | '.' :: rest2 =>
      let frac := rest2.takeWhile Char.isDigit
      if intPart.isEmpty ∧ frac.isEmpty then none
      else
        let fv : Nat := frac.foldl (fun a c => a * 10 + (c.toNat - 48)) 0
        some ((iv : Rat) + (fv : Rat) / ((10 : Rat) ^ frac.length),
          rest2.drop frac.length)
    | _ => if intPart.isEmpty then none else some ((iv : Rat), rest)
  let exponent (t : List Char) : Option Rat :=
    match t with
    | [] => some 1
    | c :: rest =>
      if c = 'e' ∨ c = 'E' then
        let negExp := rest.headD ' ' = '-'
        let digitsPart := match rest with
          | '-' :: r => r
          | '+' :: r => r
          | r => r
        if digitsPart.isEmpty ∨ ¬digitsPart.all Char.isDigit then none
        else
          let ev : Nat :=
            digitsPart.foldl (fun a c => a * 10 + (c.toNat - 48)) 0
          some (if negExp then (1 : Rat) / ((10 : Rat) ^ ev)
            else (10 : Rat) ^ ev)
      else none
  let core (t : List Char) : Option Rat :=
    match mantissa t with
    | none => none
    | some mr =>
      match exponent mr.snd with
      | none => none
      | some ex => some (mr.fst * ex)
  let trimmed :=
    ((s.toList.dropWhile Char.isWhitespace).reverse.dropWhile
      Char.isWhitespace).reverse
  match trimmed with
  | '-' :: t => (core t).map Neg.neg
  | '+' :: t => core t
  | t => core t

/-- True on a string cell spelling an IEEE infinity (`inf`/`infinity`,
any case, optional sign and whitespace).  pandas coerces these to ±inf,
a value the rational cell domain cannot represent, so the cleaning theorem
assumes the table holds none. -/
def Cell.isInfCell : Cell → Bool
  | .str s =>
    let t :=
      ((s.toList.dropWhile Char.isWhitespace).reverse.dropWhile
        Char.isWhitespace).reverse
    let unsigned := match t with
      | '-' :: r => r
      | '+' :: r => r
      | r => r
    let w := unsigned.map Char.toLower
    w == "inf".data || w == "infinity".data
  | _ => false

/-- One cell of `pd.to_numeric(col, errors='coerce')`. -/
def toNumericCell : Cell → Cell
  | .num q => .num q
  | .null => .null
  | .str s => match parseDecimal? s with
    | some q => .num q
    | none => .null

/-- `clean_data(df)` (src/data/preprocessing.py lines 79-111): drop the
`source` column when present, binarize the `target` column, replace the
sentinels `-9`, `-9.0`, `'?'` with null everywhere, then coerce every
non-target column to numeric with `errors='coerce'`. -/
def clean_data (df : DataFrame) : Except String DataFrame :=
  match binarizeTarget (if (df.find? fun c => c.fst = "source").isSome
    then dropSource df else df) with
  | .error e => .error e
  | .ok d2 =>
    .ok ((d2.map fun c => (c.fst, c.snd.map replaceSentinel)).map fun c =>
      if c.fst = "target" then c else (c.fst, c.snd.map toNumericCell))

/-! ## `HeartDiseasePreprocessor` (src/data/preprocessing.py lines 16-76)

The imputer and scaler are sklearn objects; the embedding keeps exactly the
fitted parameters the pipeline reads back: the per-column imputation
statistics (`SimpleImputer.statistics_`, medians) and the per-column scaling
statistics (`StandardScaler.mean_` / `.scale_`).  `fit` itself delegates to
the library, so the parameter values are abstract here; `transform` is what
the repository's code path exercises. -/

/-- Fitted state of `SimpleImputer(strategy='median')`: per-column medians. -/
structure ImputerState where
  statistics : List Rat
deriving Repr, DecidableEq

/-- Fitted state of `StandardScaler`: per-column means and scales. -/
structure ScalerState where
  mean : List Rat
  scale : List Rat
deriving Repr, DecidableEq

/-- The attributes of a `HeartDiseasePreprocessor` instance. -/
structure HeartDiseasePreprocessor where
  scaler : ScalerState
  imputer : ImputerState
  is_fitted : Bool
deriving Repr, DecidableEq

/-- `HeartDiseasePreprocessor.__init__`: unfitted state (the fresh sklearn
objects carry no statistics yet). -/
def HeartDiseasePreprocessor.init : HeartDiseasePreprocessor :=
  { scaler := { mean := [], scale := [] }, imputer := { statistics := [] },
    is_fitted := false }

/-- `SimpleImputer.transform` on one cell of column `i` with fitted median
`m`: nulls become the median, numbers pass through, strings make the
underlying array conversion raise. -/
def imputeCell (m : Rat) : Cell → Except String Rat
  | .null => .ok m
  | .num q => .ok q
  | .str s => .error ("ValueError: could not convert string to float: " ++ s)

/-- One row of `imputer.transform` followed by `scaler.transform`: the row
must have exactly the fitted number of columns (sklearn raises on a feature
count mismatch), nulls are imputed by the per-column median, and each value
is scaled as `(x - mean) / scale`. -/
def transformRow (p : HeartDiseasePreprocessor) (row : List Cell) :
    Except String (List Rat) :=
  if row.length = p.imputer.statistics.length then
    match mapExcept (fun cm => imputeCell cm.snd cm.fst)
        (row.zip p.imputer.statistics) with
    | .error e => .error e
    | .ok imputed =>
      .ok ((imputed.zip (p.scaler.mean.zip p.scaler.scale)).map fun xs =>
        (xs.fst - xs.snd.fst) / xs.snd.snd)
  else .error "ValueError: X has a different number of features than fitted"

/-- `HeartDiseasePreprocessor.transform` (lines 38-49): raise the not-fitted
error when `fit` has not run, otherwise impute then scale every row. -/
def HeartDiseasePreprocessor.transform (p : HeartDiseasePreprocessor)
    (X : List (List Cell)) : Except String (List (List Rat)) :=
  if p.is_fitted then mapExcept (transformRow p) X
  else .error "Preprocessor must be fitted before transform!"

/-- The dictionary pickled by `HeartDiseasePreprocessor.save` (lines 55-62):
exactly the scaler, the imputer and the fitted flag. -/
structure SavedPreprocessor where
  scaler : ScalerState
  imputer : ImputerState
  is_fitted : Bool
deriving Repr, DecidableEq

/-- `HeartDiseasePreprocessor.save`: serialize the three-field dictionary. -/
def HeartDiseasePreprocessor.save (p : HeartDiseasePreprocessor) :
    SavedPreprocessor :=
  { scaler := p.scaler, imputer := p.imputer, is_fitted := p.is_fitted }

/-- `HeartDiseasePreprocessor.load` (lines 65-76): construct a fresh instance
and restore the three serialized fields onto it. -/
def HeartDiseasePreprocessor.load (d : SavedPreprocessor) :
    HeartDiseasePreprocessor :=
  { HeartDiseasePreprocessor.init with
    scaler := d.scaler, imputer := d.imputer, is_fitted := d.is_fitted }

/-! ## A small heap model for the mutation behaviour of `clean_data`

Python dataframes are heap objects; `clean_data` receives a reference to its
argument and must not write through it.  The heap is a list of dataframes
indexed by reference; `df.copy()`, `df.drop(...)` and `df.replace(...)`
allocate fresh objects at the end of the heap, while column assignment
`df_clean[col] = ...` writes in place at the reference of `df_clean`. -/

/-- The Python heap restricted to dataframe objects. -/
abbrev Heap := List DataFrame

/-- `clean_data` replayed statement by statement on the heap: the input is a
reference `r`, the output is the final heap together with the reference
returned (or the exception raised).  `df.copy()`, `df.drop(...)` and
`df.replace(...)` allocate fresh objects at the end of the heap and rebind
the local `df_clean`; the target-column assignment and the per-column
`to_numeric` assignments write in place at `df_clean`'s reference — never
at `r`.  The value a heap read at `df_clean`'s reference returns is resolved
statically (the local always points at the object just written). -/
def cleanDataHeap (h : Heap) (r : Nat) : Heap × Except String Nat :=
  let df := h.getD r []
  let h1 := h ++ [df]
  let v2 := if (df.find? fun c => c.fst = "source").isSome
    then dropSource df else df
  let h2 := if (df.find? fun c => c.fst = "source").isSome
    then h1 ++ [dropSource df] else h1
  let c2 := if (df.find? fun c => c.fst = "source").isSome
    then h1.length else h.length
  match binarizeTarget v2 with
  | .error e => (h2, .error e)
  | .ok v3 =>
    let h3 := h2.set c2 v3
    let v4 : DataFrame := v3.map fun c => (c.fst, c.snd.map replaceSentinel)
    let h4 := h3 ++ [v4]
    let v5 : DataFrame := v4.map fun c =>
      if c.fst = "target" then c else (c.fst, c.snd.map toNumericCell)
    (h4.set h3.length v5, .ok h3.length)

/-! ## The artifact store and `ModelLoader` (src/models/load_model.py)

The model directory is a list of files.  Only the training-summary JSON
files' content matters to the loader logic, so each entry carries the
outcome of `json.load(...).get('models', {})` for that file:
`none` stands for a file on which `json.load` raises (malformed JSON) or
whose top-level value has no `.get` (not an object); `some m` stands for a
parsed object whose `models` entry is the key/metrics association `m`
(empty when the key is absent).  Metrics values are kept opaque as strings. -/

/-- A file in the artifact directory. -/
structure ArtifactFile where
  name : String
  mtime : Nat
  jsonModels : Option (List (String × String)) := none
deriving Repr, DecidableEq

/-- `pathlib.Path.glob` for the patterns this module uses, all of the shape
`prefix*suffix`: the name starts with `pre` and the remainder ends with
`suf`. -/
def globMatch (pre suf name : String) : Bool :=
  pre.isPrefixOf name && suf.data.isSuffixOf (name.drop pre.length).data

/-- `pathlib.Path.stem`: the filename without its last extension; a name
whose only dot is the leading one has no extension to strip. -/
def pathStem (name : String) : String :=
  let parts := name.splitOn "."
  if parts.length ≤ 1 then name
  else if parts.length = 2 && parts.headD "" = "" then name
  else String.intercalate "." parts.dropLast

/-- Python's `max(x :: xs, key=...)`: fold keeping the current maximum,
replacing it only on a strictly greater key, so the first of equal keys
wins. -/
def pyMaxBy {α β : Type} [LinearOrder β] (key : α → β) (x : α)
    (xs : List α) : α :=
  xs.foldl (fun acc y => if key acc < key y then y else acc) x

/-- Python's substring test `needle in hay`. -/
def strContains (hay needle : String) : Bool :=
  (List.range (hay.data.length + 1)).any fun i =>
    needle.data.isPrefixOf (hay.data.drop i)

/-- `model_path.stem.split('_')[-1]`: the token after the last underscore of
the filename stem. -/
def lastToken (name : String) : String :=
  ((pathStem name).splitOn "_").getLastD ""

/-- `model_name.lower().replace(' ', '_')` from `ModelLoader.__init__`. -/
def normalizeKind (s : String) : String :=
  s.toLower.replace " " "_"

/-- Lines 76-96 of `ModelLoader.load_model`: glob `preprocessor_*.pkl`; fail
when none exists; otherwise bind the first preprocessor whose stem contains
the model's trailing timestamp token, falling back to the most recently
modified preprocessor. -/
def pairPreprocessor (modelDir : String) (store : List ArtifactFile)
    (modelPath : ArtifactFile) : Except String ArtifactFile :=
  match store.filter fun f => globMatch "preprocessor_" ".pkl" f.name with
  | [] => .error ("No preprocessor found in " ++ modelDir)
  | p0 :: rest =>
    match (p0 :: rest).find? fun pp =>
        strContains (pathStem pp.name) (lastToken modelPath.name) with
    | some pp => .ok pp
    | none => .ok (pyMaxBy ArtifactFile.mtime p0 rest)

/-- Lines 98-109 of `ModelLoader.load_model`: glob `training_summary_*.json`;
when none exists leave the model info absent; otherwise parse the most
recently modified summary (a parse failure raises out of `load_model`) and
attach the metrics of the first key whose normalized form contains the
requested kind, if any. -/
def metricsStep (store : List ArtifactFile) (modelName : String) :
    Except String (Option String) :=
  match store.filter fun f => globMatch "training_summary_" ".json" f.name with
  | [] => .ok none
  | s0 :: rest =>
    match (pyMaxBy ArtifactFile.mtime s0 rest).jsonModels with
    | none => .error "JSONDecodeError: invalid training summary"
    | some models =>
      .ok ((models.find? fun kv =>
        strContains (normalizeKind kv.fst) modelName).map Prod.snd)

/-- The loader fields bound by a successful `load_model` call. -/
structure LoadedBinding where
  modelFile : ArtifactFile
  preprocessorFile : ArtifactFile
  model_info : Option String
deriving Repr, DecidableEq

/-- `ModelLoader.load_model` with an explicit path (lines 58-114): check the
file exists, load the model, pair a preprocessor, and attach metrics
best-effort. -/
def load_model (modelDir : String) (store : List ArtifactFile)
    (modelName : String) (modelPath : ArtifactFile) :
    Except String LoadedBinding :=
  if modelPath ∈ store then
    match pairPreprocessor modelDir store modelPath with
    | .error e => .error e
    | .ok pp =>
      match metricsStep store modelName with
      | .error e => .error e
      | .ok info =>
        .ok { modelFile := modelPath, preprocessorFile := pp,
              model_info := info }
  else .error ("Model file not found: " ++ modelPath.name)

/-- `ModelLoader.load_latest_model` (lines 43-56): glob `{kind}_*.pkl`, fail
with a not-found error naming the kind and the directory when nothing
matches, otherwise load the match with the latest modification time. -/
def load_latest_model (modelDir : String) (store : List ArtifactFile)
    (modelName : String) : Except String LoadedBinding :=
  match store.filter fun f => globMatch (modelName ++ "_") ".pkl" f.name with
  | [] => .error ("No " ++ modelName ++ " model found in " ++ modelDir)
  | m0 :: rest =>
    load_model modelDir store modelName (pyMaxBy ArtifactFile.mtime m0 rest)

/-! ## Inference (`ModelLoader.predict`, `predict_single`) -/

/-- An opaque trained sklearn classifier: its `predict` and `predict_proba`
methods on a preprocessed numeric matrix. -/
structure PyModel where
  predictFn : List (List Rat) → List Int
  predictProbaFn : List (List Rat) → List (List Rat)

/-- The inference-relevant state of a `ModelLoader` instance: `model` and
`preprocessor` are `None` until a load call binds them. -/
structure ModelLoaderState where
  model : Option PyModel
  preprocessor : Option HeartDiseasePreprocessor

/-- Result of one `predict` call: class labels, or a probability matrix when
`return_proba` is set. -/
inductive PredictOut where
  | labels (l : List Int)
  | probas (m : List (List Rat))

/-- `ModelLoader.predict` (lines 116-146) on a feature table: raise when the
model or the preprocessor is unbound, otherwise transform the features and
delegate to the model's `predict` or `predict_proba`. -/
def ModelLoaderState.predict (L : ModelLoaderState) (X : List (List Cell))
    (return_proba : Bool) : Except String PredictOut :=
  match L.model, L.preprocessor with
  | some m, some p =>
    (p.transform X).map fun Xs =>
      if return_proba then .probas (m.predictProbaFn Xs)
      else .labels (m.predictFn Xs)
  | _, _ => .error "Model and preprocessor must be loaded first!"

/-- `get_feature_names()` (src/data/preprocessing.py lines 134-139). -/
def get_feature_names : List String :=
  ["age", "sex", "cp", "trestbps", "chol", "fbs", "restecg",
   "thalach", "exang", "oldpeak", "slope", "ca", "thal"]

/-- The one-row sample built by `predict_single`:
`{name: kwargs.get(name, np.nan) for name in feature_names}` — every feature
absent from the keyword arguments becomes null. -/
def sampleRow (kwargs : List (String × Rat)) : List Cell :=
  get_feature_names.map fun n =>
    match kwargs.lookup n with
    | some v => Cell.num v
    | none => Cell.null

/-- The dictionary returned by `predict_single`. -/
structure SingleResult where
  prediction : Int
  prediction_label : String
  probability : Rat
  confidence : Rat
deriving Repr, DecidableEq

/-- Python's `max(x :: xs)` on rationals (first of equal maxima wins). -/
def pyMaxRat (x : Rat) (xs : List Rat) : Rat :=
  pyMaxBy (fun q => q) x xs

/-- `ModelLoader.predict_single` (lines 148-173): build the one-row sample,
predict the label and the probability row, and assemble the result
dictionary (`probabilities[1]` and `max(probabilities)` raise when the
probability row is too short). -/
def ModelLoaderState.predict_single (L : ModelLoaderState)
    (kwargs : List (String × Rat)) : Except String SingleResult :=
  let sample := [sampleRow kwargs]
  match L.predict sample false, L.predict sample true with
  | .error e, _ => .error e
  | _, .error e => .error e
  | .ok o1, .ok o2 =>
    match o1, o2 with
    | .labels (pred :: _), .probas (probs :: _) =>
      match probs[1]?, probs with
      | some p1, q0 :: qs =>
        .ok { prediction := pred,
              prediction_label :=
                if pred = 1 then "Disease Present" else "No Disease",
              probability := p1,
              confidence := pyMaxRat q0 qs }
      | _, _ => .error "IndexError: probability row too short"
    | _, _ => .error "IndexError: empty prediction"

/-- Decidable equality on `Except`, so that theorems can be evaluated on
concrete artifact stores and tables. -/
instance {ε α : Type} [DecidableEq ε] [DecidableEq α] :
    DecidableEq (Except ε α) := fun a b =>
  match a, b with
  | .error e, .error f =>
    if h : e = f then .isTrue (by rw [h]) else .isFalse (by simp [h])
  | .ok x, .ok y =>
    if h : x = y then .isTrue (by rw [h]) else .isFalse (by simp [h])
  | .error _, .ok _ => .isFalse (by simp)
  | .ok _, .error _ => .isFalse (by simp)

/-! ## Concrete instances used to instantiate the theorems -/

/-- True when the cell is a string token. -/
def Cell.isStr : Cell → Bool
  | .str _ => true
  | _ => false

/-- The value `(c > 0).astype(int)` takes on a non-string cell; on a string
cell `binarizeCell` raises instead, so the string branch here is inert. -/
def binarizeValue : Cell → Cell
  | .num q => .num (if 0 < q then 1 else 0)
  | .null => .num 0
  | .str s => .str s

/-- The table the cleaning step is specified to produce: the source column
dropped, the target column collapsed to binary, and every other column's
sentinels nulled and tokens coerced to numeric. -/
def cleanedTable (df : DataFrame) : DataFrame :=
  (if (df.find? fun c => c.fst = "source").isSome
    then dropSource df else df).map fun c =>
    if c.fst = "target" then (c.fst, c.snd.map binarizeValue)
    else (c.fst, c.snd.map fun x => toNumericCell (replaceSentinel x))

/-- A fitted two-column preprocessor. -/
def demoPre : HeartDiseasePreprocessor :=
  { scaler := { mean := [0, 0], scale := [1, 1] },
    imputer := { statistics := [5, 6] }, is_fitted := true }

/-- A two-column feature table with a missing value. -/
def demoX : List (List Cell) := [[.num 1, .null]]

/-- `demoPre.transform demoX`: the null is imputed by the median `6`. -/
def demoY : List (List Rat) := [[1, 6]]

/-- A fitted identity preprocessor over the 13-feature schema. -/
def mockPre : HeartDiseasePreprocessor :=
  { scaler := { mean := List.replicate 13 0, scale := List.replicate 13 1 },
    imputer := { statistics := List.replicate 13 0 }, is_fitted := true }

/-- A mock binary classifier answering probability `[0.3, 0.7]`. -/
def mockModel : PyModel :=
  { predictFn := fun _ => [1], predictProbaFn := fun _ => [[3/10, 7/10]] }

/-- A loader bound to the mock model and the identity preprocessor. -/
def mockLoader : ModelLoaderState :=
  { model := some mockModel, preprocessor := some mockPre }

/-- A loader on which no load call has run. -/
def unboundLoader : ModelLoaderState := { model := none, preprocessor := none }

/-- The fixed single-sample example of the spec. -/
def mockKwargs : List (String × Rat) :=
  [("age", 63), ("sex", 1), ("cp", 1), ("trestbps", 145), ("chol", 233),
   ("fbs", 1), ("restecg", 2), ("thalach", 150), ("exang", 0),
   ("oldpeak", 23/10), ("slope", 3), ("ca", 0), ("thal", 6)]

/-- The numeric matrix the identity preprocessor produces from the fixed
single-sample example. -/
def mockXs : List (List Rat) :=
  [[63, 1, 1, 145, 233, 1, 2, 150, 0, 23/10, 3, 0, 6]]

/-- The dictionary `predict_single` returns for the mock model on the
fixed example. -/
def mockResult : SingleResult :=
  { prediction := 1, prediction_label := "Disease Present",
    probability := 7/10, confidence := 7/10 }

/-- A raw table whose target column holds the `'?'` missing-value
sentinel as a string. -/
def qTargetDf : DataFrame :=
  [("age", [.num 63]), ("target", [.str "?"])]

/-- A raw dataframe with sentinels, a source column, and targets 0..3. -/
def demoDf : DataFrame :=
  [("age", [.num 63, .num (-9), .str "?", .num 37]),
   ("source", [.str "a", .str "b", .str "c", .str "d"]),
   ("target", [.num 0, .num 1, .num 2, .num 3])]

/-- A stored preprocessor artifact with run timestamp `20240101_000000`. -/
def ppA : ArtifactFile := { name := "preprocessor_20240101_000000.pkl", mtime := 50 }

/-- A model artifact whose embedded timestamp is older but whose filesystem
modification time is newer. -/
def rfOldName : ArtifactFile :=
  { name := "random_forest_20240101_000000.pkl", mtime := 200 }

/-- A model artifact whose embedded timestamp is newer but whose filesystem
modification time is older. -/
def rfNewName : ArtifactFile :=
  { name := "random_forest_20240102_000000.pkl", mtime := 100 }

/-- A store where modification-time order and filename-timestamp order
disagree. -/
def mtimeStore : List ArtifactFile := [rfNewName, rfOldName, ppA]

/-- A logistic-regression model artifact from run `20240101_000000`. -/
def lrModel : ArtifactFile :=
  { name := "logistic_regression_20240101_000000.pkl", mtime := 5 }

/-- A training summary whose JSON content fails to parse. -/
def badSummary : ArtifactFile :=
  { name := "training_summary_20240101_000000.json", mtime := 10,
    jsonModels := none }

/-- A store holding a model, a matching preprocessor, and a malformed
training summary. -/
def badStore : List ArtifactFile := [lrModel, ppA, badSummary]

/-- A training summary that parses into two model-metric entries. -/
def goodSummary : ArtifactFile :=
  { name := "training_summary_20240102_000000.json", mtime := 11,
    jsonModels := some [("Logistic Regression", "lrMetrics"),
                        ("Random Forest", "rfMetrics")] }

/-- A store holding a model, a matching preprocessor, and a well-formed
training summary. -/
def goodStore : List ArtifactFile := [lrModel, ppA, goodSummary]

/-! ## Helper lemmas -/

theorem pyMaxBy_cons {α β : Type} [LinearOrder β] (key : α → β) (x y : α)
    (ys : List α) :
    pyMaxBy key x (y :: ys) =
      pyMaxBy key (if key x < key y then y else x) ys := rfl

theorem pyMaxBy_mem {α β : Type} [LinearOrder β] (key : α → β) (x : α)
    (xs : List α) : pyMaxBy key x xs ∈ x :: xs := by
  induction xs generalizing x with
  | nil => simp [pyMaxBy]
  | cons y ys ih =>
    rw [pyMaxBy_cons]
    by_cases hxy : key x < key y
    · rw [if_pos hxy]
      have h := ih y
      rw [List.mem_cons] at h
      rcases h with h | h <;> simp [List.mem_cons, h]
    · rw [if_neg hxy]
      have h := ih x
      rw [List.mem_cons] at h
      rcases h with h | h <;> simp [List.mem_cons, h]

theorem pyMaxBy_le {α β : Type} [LinearOrder β] (key : α → β) (x : α)
    (xs : List α) : ∀ z ∈ x :: xs, key z ≤ key (pyMaxBy key x xs) := by
  induction xs generalizing x with
  | nil => simp [pyMaxBy]
  | cons y ys ih =>
    intro z hz
    rw [pyMaxBy_cons]
    have hx : key x ≤ key (if key x < key y then y else x) := by
      by_cases hxy : key x < key y <;> simp [hxy, le_of_lt]
    have hy : key y ≤ key (if key x < key y then y else x) := by
      by_cases hxy : key x < key y <;> simp [hxy, le_of_not_lt]
    have hhead := ih (if key x < key y then y else x)
      (if key x < key y then y else x) (by simp)
    rw [List.mem_cons, List.mem_cons] at hz
    rcases hz with rfl | rfl | hz
    · exact le_trans hx hhead
    · exact le_trans hy hhead
    · exact ih (if key x < key y then y else x) z (by simp [hz])

theorem mapExcept_ok_of_forall {α β : Type} (f : α → Except String β)
    (g : α → β) : ∀ (l : List α), (∀ a ∈ l, f a = .ok (g a)) →
      mapExcept f l = .ok (l.map g) := by
  intro l
  induction l with
  | nil => intro _; rfl
  | cons a l ih =>
    intro h
    have ha := h a (by simp)
    have hl := ih fun b hb => h b (by simp [hb])
    simp [mapExcept, ha, hl]

theorem mapExcept_ok_forall₂ {α β : Type} (f : α → Except String β) :
    ∀ (l : List α) (l' : List β), mapExcept f l = .ok l' →
      List.Forall₂ (fun a b => f a = .ok b) l l' := by
  intro l
  induction l with
  | nil =>
    intro l' h
    simp only [mapExcept, Except.ok.injEq] at h
    subst h
    exact List.Forall₂.nil
  | cons a as ih =>
    intro l' h
    simp only [mapExcept] at h
    cases hfa : f a with
    | error e => rw [hfa] at h; simp at h
    | ok b =>
      rw [hfa] at h
      cases hrest : mapExcept f as with
      | error e => rw [hrest] at h; simp at h
      | ok bs =>
        rw [hrest] at h
        simp only [Except.ok.injEq] at h
        subst h
        exact List.Forall₂.cons hfa (ih bs hrest)

theorem find?_eq_some_split {α : Type} (p : α → Bool) :
    ∀ (l : List α) (x : α), l.find? p = some x →
      ∃ l₁ l₂, l = l₁ ++ x :: l₂ ∧ p x = true ∧ ∀ y ∈ l₁, p y = false := by
  intro l
  induction l with
  | nil => intro x h; cases h
  | cons a as ih =>
    intro x h
    rw [List.find?_cons] at h
    cases hp : p a with
    | true =>
      rw [hp] at h
      cases h
      exact ⟨[], as, by simp, hp, by simp⟩
    | false =>
      rw [hp] at h
      obtain ⟨l₁, l₂, hsplit, hx, hrest⟩ := ih x h
      exact ⟨a :: l₁, l₂, by simp [hsplit], hx, by
        intro y hy
        rw [List.mem_cons] at hy
        rcases hy with rfl | hy
        · exact hp
        · exact hrest y hy⟩

theorem transformRow_ok_length (p : HeartDiseasePreprocessor)
    (hm : p.scaler.mean.length = p.imputer.statistics.length)
    (hs : p.scaler.scale.length = p.imputer.statistics.length)
    (row : List Cell) (out : List Rat) (hok : transformRow p row = .ok out) :
    out.length = row.length := by
  unfold transformRow at hok
  by_cases hlen : row.length = p.imputer.statistics.length
  · rw [if_pos hlen] at hok
    cases himp : mapExcept (fun cm => imputeCell cm.snd cm.fst)
        (row.zip p.imputer.statistics) with
    | error e => rw [himp] at hok; simp at hok
    | ok imputed =>
      have hil : imputed.length = (row.zip p.imputer.statistics).length :=
        ((mapExcept_ok_forall₂ _ _ _ himp).length_eq).symm
      rw [himp] at hok
      simp only [Except.ok.injEq] at hok
      subst hok
      simp [List.length_zip, hil, hm, hs, hlen]
  · rw [if_neg hlen] at hok
    cases hok

/-- C8: for a fitted preprocessor (whose per-column scaler statistics are
as long as its imputer statistics, as sklearn fitting guarantees),
`transform` imputes then scales and any successful result has exactly the
input's row count, and each output row has the length of the corresponding
input row. -/
theorem transform_shape (p : HeartDiseasePreprocessor)
    (hm : p.scaler.mean.length = p.imputer.statistics.length)
    (hs : p.scaler.scale.length = p.imputer.statistics.length)
    (X : List (List Cell)) (Y : List (List Rat))
    (hok : p.transform X = .ok Y) :
    Y.length = X.length ∧
      List.Forall₂ (fun r s => s.length = r.length) X Y := by
  unfold HeartDiseasePreprocessor.transform at hok
  by_cases hfit : p.is_fitted
  · rw [if_pos hfit] at hok
    have h2 := mapExcept_ok_forall₂ (transformRow p) X Y hok
    exact ⟨h2.length_eq.symm,
      h2.imp fun {a b} hab => transformRow_ok_length p hm hs a b hab⟩
  · rw [if_neg hfit] at hok
    cases hok

/-- C8 witness: a concrete fitted preprocessor and table. -/
theorem transform_shape_witness :
    demoPre.transform demoX = .ok demoY ∧
      demoY.length = demoX.length ∧
      List.Forall₂ (fun r s => s.length = r.length) demoX demoY := by
  refine ⟨by with_unfolding_all decide, ?_⟩
  exact transform_shape demoPre rfl rfl demoX demoY
    (by with_unfolding_all decide)

/-- C6: `transform` on any preprocessor whose `fit` has never run
(`is_fitted` is still `False`, as `__init__` leaves it) raises the
not-fitted error on every input table and never returns a matrix. -/
theorem transform_unfitted (p : HeartDiseasePreprocessor)
    (h : p.is_fitted = false) (X : List (List Cell)) :
    p.transform X = .error "Preprocessor must be fitted before transform!" := by
  simp [HeartDiseasePreprocessor.transform, h]

/-- C6 witness: the freshly constructed preprocessor on the empty table. -/
theorem transform_unfitted_witness :
    HeartDiseasePreprocessor.init.is_fitted = false ∧
      HeartDiseasePreprocessor.init.transform [] =
        .error "Preprocessor must be fitted before transform!" :=
  ⟨rfl, transform_unfitted HeartDiseasePreprocessor.init rfl []⟩

/-- C5: persistence round-trip — the pickled dictionary holds exactly the
scaler state, the imputer state and the fitted flag, `load` after `save`
restores an equal preprocessor, and hence `transform` behaves identically
on every input table. -/
theorem preprocessor_roundtrip (p : HeartDiseasePreprocessor)
    (X : List (List Cell)) :
    p.save = { scaler := p.scaler, imputer := p.imputer,
               is_fitted := p.is_fitted } ∧
      HeartDiseasePreprocessor.load p.save = p ∧
      (HeartDiseasePreprocessor.load p.save).transform X = p.transform X :=
  ⟨rfl, rfl, rfl⟩

theorem binarizeCell_ok (c : Cell) (h : c.isStr = false) :
    binarizeCell c = .ok (binarizeValue c) := by
  cases c <;> simp_all [binarizeCell, binarizeValue, Cell.isStr]

theorem binarizeTarget_ok (df : DataFrame)
    (h : ∀ p ∈ df, p.fst = "target" → ∀ c ∈ p.snd, c.isStr = false) :
    binarizeTarget df = .ok (df.map fun c =>
      if c.fst = "target" then (c.fst, c.snd.map binarizeValue) else c) := by
  unfold binarizeTarget
  by_cases hp : (df.find? fun c => c.fst = "target").isSome
  · rw [if_pos hp]
    apply mapExcept_ok_of_forall
    intro a ha
    by_cases ht : a.fst = "target"
    · have hcells : mapExcept binarizeCell a.snd =
          .ok (a.snd.map binarizeValue) :=
        mapExcept_ok_of_forall _ _ _ fun c hc =>
          binarizeCell_ok c (h a ha ht c hc)
      simp [ht, hcells, Except.map]
    · simp [ht]
  · rw [if_neg hp]
    have hnone : ∀ c ∈ df, ¬(c.fst = "target") := by
      intro c hc
      have hfind : (df.find? fun c => c.fst = "target") = none := by
        cases hf : df.find? fun c => c.fst = "target" with
        | none => rfl
        | some x => rw [hf] at hp; simp at hp
      have := List.find?_eq_none.mp hfind c hc
      simpa using this
    have hmap : (df.map fun c =>
        if c.fst = "target" then (c.fst, c.snd.map binarizeValue) else c)
        = df.map fun c => c := by
      apply List.map_congr_left
      intro a ha
      simp [hnone a ha]
    rw [hmap, List.map_id']

theorem replaceSentinel_binarizeValue (c : Cell) (h : c.isStr = false) :
    replaceSentinel (binarizeValue c) = binarizeValue c := by
  cases c with
  | num q =>
    have h1 : (if 0 < q then (1 : Rat) else 0) ≠ -9 := by
      split <;> norm_num
    simp [binarizeValue, replaceSentinel, h1]
  | str s => simp [Cell.isStr] at h
  | null => simp [binarizeValue, replaceSentinel]

/-- C4 counterexample: the claim quantifies over every input table, but on
a table whose target column holds the `'?'` string sentinel `clean_data`
raises a `TypeError` instead of converting the sentinel to null — the
target binarization at preprocessing.py line 98 runs before the sentinel
replacement at line 101 and compares a string with `0`. -/
theorem clean_data_target_sentinel_counterexample :
    clean_data qTargetDf =
      .error "TypeError: not supported between str and int: ?" ∧
    ∀ out, clean_data qTargetDf ≠ .ok out := by
  have h1 : clean_data qTargetDf =
      .error "TypeError: not supported between str and int: ?" := by
    with_unfolding_all decide
  exact ⟨h1, fun out h => Except.noConfusion (h1.symm.trans h)⟩

/-- C4 (amended): cleaning — for every table whose target column holds no
string cell (in particular no `'?'` sentinel in the target; such a cell
makes `clean_data` raise, since binarization precedes sentinel
replacement) and whose cells include no IEEE-infinity token (a value
outside this embedding's rational cell domain), `clean_data` succeeds and
produces exactly `cleanedTable`: the source column dropped, the target
collapsed to `1` exactly when the original value is `> 0` (else `0`;
numeric sentinels such as `-9` in the target fall to `0`), sentinels
`-9`/`-9.0`/`?` in the feature columns turned into null, and every
feature column coerced to numeric with non-numeric tokens becoming null
rather than raising; no source column survives. -/
theorem clean_data_spec (df : DataFrame)
    (h : ∀ p ∈ df, p.fst = "target" → ∀ c ∈ p.snd, c.isStr = false)
    (_hinf : ∀ p ∈ df, ∀ c ∈ p.snd, c.isInfCell = false) :
    clean_data df = .ok (cleanedTable df) ∧
      "source" ∉ (cleanedTable df).colNames := by
  set d1 : DataFrame := if (df.find? fun c => c.fst = "source").isSome
    then dropSource df else df with hd1
  have h1 : ∀ p ∈ d1, p.fst = "target" → ∀ c ∈ p.snd, c.isStr = false := by
    intro p hp
    apply h
    rw [hd1] at hp
    by_cases hs : (df.find? fun c => c.fst = "source").isSome
    · rw [if_pos hs] at hp
      exact (List.mem_filter.mp hp).1
    · rw [if_neg hs] at hp
      exact hp
  constructor
  · unfold clean_data
    rw [← hd1, binarizeTarget_ok d1 h1]
    simp only [cleanedTable, ← hd1, List.map_map]
    congr 1
    apply List.map_congr_left
    intro a ha
    by_cases ht : a.fst = "target"
    · have : (a.snd.map binarizeValue).map replaceSentinel
          = a.snd.map binarizeValue := by
        rw [List.map_map]
        apply List.map_congr_left
        intro c hc
        exact replaceSentinel_binarizeValue c (h1 a ha ht c hc)
      simp [Function.comp, ht, this]
    · simp [Function.comp, ht, List.map_map]
  · intro hmem
    unfold cleanedTable at hmem
    rw [← hd1] at hmem
    unfold DataFrame.colNames at hmem
    rw [List.map_map] at hmem
    simp only [List.mem_map] at hmem
    obtain ⟨c, hc, hcname⟩ := hmem
    have hfst : c.fst = "source" := by
      by_cases ht : c.fst = "target"
      · simp [Function.comp, ht] at hcname
      · simp [Function.comp, ht] at hcname
        exact hcname
    by_cases hs : (df.find? fun c => c.fst = "source").isSome
    · rw [hd1, if_pos hs] at hc
      have := (List.mem_filter.mp hc).2
      simp [hfst] at this
    · have hfind : (df.find? fun c => c.fst = "source") = none := by
        cases hf : df.find? fun c => c.fst = "source" with
        | none => rfl
        | some x => rw [hf] at hs; simp at hs
      rw [hd1, if_neg hs] at hc
      have := List.find?_eq_none.mp hfind c hc
      simp [hfst] at this

/-- C4 witness: a concrete raw table with sentinels, a source column and
the target values 0..3; exactly the three values above zero map to 1. -/
theorem clean_data_spec_witness :
    clean_data demoDf = .ok (cleanedTable demoDf) ∧
      "source" ∉ (cleanedTable demoDf).colNames ∧
      (cleanedTable demoDf).col "target" =
        some [.num 0, .num 1, .num 1, .num 1] ∧
      (((cleanedTable demoDf).col "target").getD []).count (.num 1) = 3 := by
  refine ⟨(clean_data_spec demoDf (by decide)
      (by with_unfolding_all decide)).1,
    (clean_data_spec demoDf (by decide)
      (by with_unfolding_all decide)).2, by decide, by decide⟩

/-- C1: preprocessor pairing — `load_model` fails when no `preprocessor_*`
artifact exists; a successful pairing binds either the first preprocessor
(in store order) whose filename stem contains the token after the last
underscore of the model's filename stem, or — when no stem contains that
token — a preprocessor with the latest modification time; and the
preprocessor bound by a successful `load_model` is exactly the one this
pairing rule chooses. -/
theorem pair_preprocessor_spec (modelDir : String) (store : List ArtifactFile)
    (mp : ArtifactFile) :
    ((store.filter fun f => globMatch "preprocessor_" ".pkl" f.name) = [] →
      pairPreprocessor modelDir store mp =
        .error ("No preprocessor found in " ++ modelDir)) ∧
    (∀ pp, pairPreprocessor modelDir store mp = .ok pp →
      (∃ l₁ l₂,
        (store.filter fun f => globMatch "preprocessor_" ".pkl" f.name)
          = l₁ ++ pp :: l₂ ∧
        strContains (pathStem pp.name) (lastToken mp.name) = true ∧
        ∀ q ∈ l₁,
          strContains (pathStem q.name) (lastToken mp.name) = false) ∨
      ((∀ q ∈ store.filter fun f => globMatch "preprocessor_" ".pkl" f.name,
          strContains (pathStem q.name) (lastToken mp.name) = false) ∧
        pp ∈ (store.filter fun f => globMatch "preprocessor_" ".pkl" f.name) ∧
        ∀ q ∈ store.filter fun f => globMatch "preprocessor_" ".pkl" f.name,
          q.mtime ≤ pp.mtime)) ∧
    (∀ kind st, load_model modelDir store kind mp = .ok st →
      pairPreprocessor modelDir store mp = .ok st.preprocessorFile) := by
  refine ⟨?_, ?_, ?_⟩
  · intro h
    unfold pairPreprocessor
    rw [h]
  · intro pp hpp
    unfold pairPreprocessor at hpp
    cases hfil : store.filter fun f => globMatch "preprocessor_" ".pkl" f.name with
    | nil =>
      simp only [hfil] at hpp
      exact Except.noConfusion hpp
    | cons p0 rest =>
      cases hfind : (p0 :: rest).find? fun q =>
          strContains (pathStem q.name) (lastToken mp.name) with
      | some q =>
        simp only [hfil, hfind, Except.ok.injEq] at hpp
        subst hpp
        left
        obtain ⟨l₁, l₂, hsplit, hq, hbefore⟩ :=
          find?_eq_some_split _ _ _ hfind
        exact ⟨l₁, l₂, hsplit, hq, fun y hy => by
          simpa using hbefore y hy⟩
      | none =>
        simp only [hfil, hfind, Except.ok.injEq] at hpp
        subst hpp
        right
        have hnone := List.find?_eq_none.mp hfind
        refine ⟨fun q hq => by simpa using hnone q hq, ?_, ?_⟩
        · exact pyMaxBy_mem _ p0 rest
        · intro q hq
          exact pyMaxBy_le _ p0 rest q hq
  · intro kind st hld
    unfold load_model at hld
    by_cases hmem : mp ∈ store
    · rw [if_pos hmem] at hld
      cases hpair : pairPreprocessor modelDir store mp with
      | error e => rw [hpair] at hld; cases hld
      | ok pp =>
        rw [hpair] at hld
        cases hmet : metricsStep store kind with
        | error e => rw [hmet] at hld; cases hld
        | ok info =>
          rw [hmet] at hld
          simp only [Except.ok.injEq] at hld
          subst hld
          rfl
    · rw [if_neg hmem] at hld
      cases hld

/-- C1 witness: the empty store fails; on a store holding the matching
preprocessor, a successful `load_model` is paired as the rule says. -/
theorem pair_preprocessor_spec_witness :
    pairPreprocessor "models" ([] : List ArtifactFile) lrModel =
      .error ("No preprocessor found in " ++ "models") ∧
    pairPreprocessor "models" goodStore lrModel = .ok ppA := by
  refine ⟨(pair_preprocessor_spec "models" [] lrModel).1 rfl, ?_⟩
  have h := (pair_preprocessor_spec "models" goodStore lrModel).2.2
    "logistic_regression"
    { modelFile := lrModel, preprocessorFile := ppA,
      model_info := some "lrMetrics" } (by with_unfolding_all decide)
  simpa using h

/-- C2: model resolution — with the kind normalized to lowercase with
spaces replaced by underscores, `load_latest_model` globs `{kind}_*.pkl`;
an empty match fails with a not-found error naming the kind and directory;
otherwise the artifact with the latest filesystem modification time is
loaded.  On the concrete `mtimeStore`, the file whose *name* carries the
older embedded timestamp wins because its modification time is newer,
showing the selection is by mtime and not by the filename timestamp. -/
theorem resolve_latest_spec (modelDir raw : String)
    (store : List ArtifactFile) :
    ((store.filter fun f =>
        globMatch (normalizeKind raw ++ "_") ".pkl" f.name) = [] →
      load_latest_model modelDir store (normalizeKind raw) =
        .error ("No " ++ normalizeKind raw ++ " model found in "
          ++ modelDir)) ∧
    (∀ m0 rest, (store.filter fun f =>
        globMatch (normalizeKind raw ++ "_") ".pkl" f.name) = m0 :: rest →
      load_latest_model modelDir store (normalizeKind raw) =
        load_model modelDir store (normalizeKind raw)
          (pyMaxBy ArtifactFile.mtime m0 rest) ∧
      pyMaxBy ArtifactFile.mtime m0 rest ∈ m0 :: rest ∧
      ∀ y ∈ m0 :: rest,
        y.mtime ≤ (pyMaxBy ArtifactFile.mtime m0 rest).mtime) ∧
    (∃ st, load_latest_model "models" mtimeStore "random_forest" = .ok st ∧
      st.modelFile = rfOldName ∧ rfOldName.name < rfNewName.name ∧
      rfNewName.mtime < rfOldName.mtime) := by
  refine ⟨?_, ?_, ?_⟩
  · intro h
    unfold load_latest_model
    rw [h]
  · intro m0 rest h
    refine ⟨?_, pyMaxBy_mem _ m0 rest, fun y hy => pyMaxBy_le _ m0 rest y hy⟩
    unfold load_latest_model
    rw [h]
  · exact ⟨⟨rfOldName, ppA, none⟩, by with_unfolding_all decide, rfl,
      by with_unfolding_all decide, by decide⟩

/-- C2 witness: the empty store yields the not-found error (with the kind
normalized from "Random Forest"); on `mtimeStore` the loader loads the
mtime-maximal match. -/
theorem resolve_latest_spec_witness :
    load_latest_model "models" [] (normalizeKind "Random Forest") =
      .error ("No " ++ normalizeKind "Random Forest" ++ " model found in "
        ++ "models") ∧
    load_latest_model "models" mtimeStore (normalizeKind "Random Forest") =
      load_model "models" mtimeStore (normalizeKind "Random Forest")
        (pyMaxBy ArtifactFile.mtime rfNewName [rfOldName]) := by
  refine ⟨(resolve_latest_spec "models" "Random Forest" []).1 rfl, ?_⟩
  exact ((resolve_latest_spec "models" "Random Forest" mtimeStore).2.1
    rfNewName [rfOldName] (by with_unfolding_all decide)).1

/-- C3 counterexample: on `badStore` the model and preprocessor pair
successfully, yet `load_model` fails because the most recent training
summary is malformed — the metrics step is not unconditionally
non-fatal. -/
theorem metrics_malformed_counterexample :
    pairPreprocessor "models" badStore lrModel = .ok ppA ∧
    load_model "models" badStore "logistic_regression" lrModel =
      .error "JSONDecodeError: invalid training summary" := by
  exact ⟨by with_unfolding_all decide, by with_unfolding_all decide⟩

/-- C3 (amended): once a model and preprocessor are bound, the metrics
step tolerates a missing training summary (metrics left absent) and a
summary with any key set (attaching the first key whose normalized form
contains the requested kind, or none), but a malformed latest summary
raises and fails the whole `load_model` call. -/
theorem metrics_step_best_effort (modelDir : String)
    (store : List ArtifactFile) (kind : String) (mp : ArtifactFile)
    (hmp : mp ∈ store) (pp : ArtifactFile)
    (hpp : pairPreprocessor modelDir store mp = .ok pp) :
    ((store.filter fun f => globMatch "training_summary_" ".json" f.name)
        = [] →
      load_model modelDir store kind mp =
        .ok { modelFile := mp, preprocessorFile := pp,
              model_info := none }) ∧
    (∀ s0 rest models,
      (store.filter fun f => globMatch "training_summary_" ".json" f.name)
        = s0 :: rest →
      (pyMaxBy ArtifactFile.mtime s0 rest).jsonModels = some models →
      load_model modelDir store kind mp =
        .ok { modelFile := mp, preprocessorFile := pp,
              model_info := (models.find? fun kv =>
                strContains (normalizeKind kv.fst) kind).map Prod.snd }) ∧
    (∀ s0 rest,
      (store.filter fun f => globMatch "training_summary_" ".json" f.name)
        = s0 :: rest →
      (pyMaxBy ArtifactFile.mtime s0 rest).jsonModels = none →
      load_model modelDir store kind mp =
        .error "JSONDecodeError: invalid training summary") := by
  refine ⟨?_, ?_, ?_⟩
  · intro h
    unfold load_model metricsStep
    rw [if_pos hmp, hpp, h]
  · intro s0 rest models h hjson
    unfold load_model metricsStep
    rw [if_pos hmp, hpp, h]
    simp only [hjson]
  · intro s0 rest h hjson
    unfold load_model metricsStep
    rw [if_pos hmp, hpp, h]
    simp only [hjson]

/-- C3 witness: on `goodStore` the load succeeds and attaches the metrics
of the first summary key whose normalized form contains the kind. -/
theorem metrics_step_best_effort_witness :
    load_model "models" goodStore "logistic_regression" lrModel =
      .ok { modelFile := lrModel, preprocessorFile := ppA,
            model_info := some "lrMetrics" } := by
  have h := (metrics_step_best_effort "models" goodStore
    "logistic_regression" lrModel (by decide) ppA
    (by with_unfolding_all decide)).2.1 goodSummary []
    [("Logistic Regression", "lrMetrics"), ("Random Forest", "rfMetrics")]
    (by with_unfolding_all decide) (by decide)
  rw [h]
  with_unfolding_all decide

/-- C7: `predict_single` builds a one-row table over the fixed 13-field
schema with absent fields null (left to the preprocessor's imputation);
bound to a binary model it returns the predicted label, the matching human
label string, `probability` equal to the class-1 entry of the probability
row, and `confidence` equal to the maximum of the probability row; on an
unbound loader it raises the must-be-loaded error. -/
theorem predict_single_spec (L : ModelLoaderState)
    (kwargs : List (String × Rat)) :
    ((L.model = none ∨ L.preprocessor = none) →
      L.predict_single kwargs =
        .error "Model and preprocessor must be loaded first!") ∧
    (sampleRow kwargs).length = get_feature_names.length ∧
    (∀ i (hi : i < get_feature_names.length),
      kwargs.lookup (get_feature_names.get ⟨i, hi⟩) = none →
      (sampleRow kwargs)[i]? = some Cell.null) ∧
    (∀ m p Xs pred preds q0 q1 qs pr,
      L.model = some m → L.preprocessor = some p →
      p.transform [sampleRow kwargs] = .ok Xs →
      m.predictFn Xs = pred :: preds →
      m.predictProbaFn Xs = (q0 :: q1 :: qs) :: pr →
      (pred = 0 ∨ pred = 1) →
      L.predict_single kwargs =
        .ok { prediction := pred,
              prediction_label :=
                if pred = 1 then "Disease Present" else "No Disease",
              probability := q1,
              confidence := pyMaxRat q0 (q1 :: qs) } ∧
      (pred = 0 ∨ pred = 1)) := by
  refine ⟨?_, ?_, ?_, ?_⟩
  · intro h
    rcases h with h | h
    · cases hp : L.preprocessor <;>
        simp [ModelLoaderState.predict_single, ModelLoaderState.predict,
          h, hp]
    · cases hm : L.model <;>
        simp [ModelLoaderState.predict_single, ModelLoaderState.predict,
          hm, h]
  · simp [sampleRow]
  · intro i hi hlook
    simp [sampleRow, List.getElem?_map, List.getElem?_eq_getElem hi]
    rw [List.get_eq_getElem] at hlook
    simp [hlook]
  · intro m p Xs pred preds q0 q1 qs pr hm hp htr hpred hproba hbin
    refine ⟨?_, hbin⟩
    simp [ModelLoaderState.predict_single, ModelLoaderState.predict,
      hm, hp, htr, hpred, hproba, Except.map]

/-- C7 witness: the unbound loader raises; the mock loader on the fixed
13-field example returns label 1, "Disease Present", probability 0.7 and
confidence 0.7. -/
theorem predict_single_spec_witness :
    unboundLoader.predict_single mockKwargs =
      .error "Model and preprocessor must be loaded first!" ∧
    mockLoader.predict_single mockKwargs = .ok mockResult := by
  constructor
  · exact (predict_single_spec unboundLoader mockKwargs).1 (Or.inl rfl)
  · have h := ((predict_single_spec mockLoader mockKwargs).2.2.2 mockModel
      mockPre mockXs 1 [] (3/10) (7/10) [] [] rfl rfl
      (by with_unfolding_all decide) rfl rfl (Or.inr rfl)).1
    rw [h]
    with_unfolding_all decide

/-- C10: in every successful `predict_single` result, `confidence`
dominates `probability` (the maximum of the probability row is at least
its class-1 entry), and the human label string is determined by the
predicted label. -/
theorem predict_single_confidence (L : ModelLoaderState)
    (kwargs : List (String × Rat)) (r : SingleResult)
    (h : L.predict_single kwargs = .ok r) :
    r.probability ≤ r.confidence ∧
      r.prediction_label =
        (if r.prediction = 1 then "Disease Present" else "No Disease") := by
  unfold ModelLoaderState.predict_single at h
  cases h1 : L.predict [sampleRow kwargs] false with
  | error e =>
    simp only [h1] at h
    exact Except.noConfusion h
  | ok o1 =>
    cases h2 : L.predict [sampleRow kwargs] true with
    | error e =>
      simp only [h1, h2] at h
      exact Except.noConfusion h
    | ok o2 =>
      simp only [h1, h2] at h
      cases o1 with
      | probas m => simp at h
      | labels lp =>
        cases lp with
        | nil => simp at h
        | cons pred preds =>
          cases o2 with
          | labels l2 => simp at h
          | probas mp =>
            cases mp with
            | nil => simp at h
            | cons probs pr =>
              cases probs with
              | nil => simp at h
              | cons q0 qs =>
                cases qs with
                | nil => simp at h
                | cons q1 qs' =>
                  simp only [List.getElem?_cons_succ,
                    List.getElem?_cons_zero, Except.ok.injEq] at h
                  subst h
                  constructor
                  · exact pyMaxBy_le (fun q => q) q0 (q1 :: qs') q1
                      (by simp)
                  · rfl

/-- C10 witness: the mock loader's concrete result satisfies both
properties. -/
theorem predict_single_confidence_witness :
    mockResult.probability ≤ mockResult.confidence ∧
      mockResult.prediction_label =
        (if mockResult.prediction = 1 then "Disease Present"
          else "No Disease") :=
  predict_single_confidence mockLoader mockKwargs mockResult
    (by with_unfolding_all decide)

theorem getElem?_append_left_of_lt {l : Heap} (x : DataFrame) {n : Nat}
    (hn : n < l.length) : (l ++ [x])[n]? = l[n]? := by
  rw [List.getElem?_append, if_pos hn]

/-- C9: `clean_data` never mutates its argument — replayed on the heap,
every allocation lands past the end of the original heap and every
in-place write targets the copy's reference, so the input slot `r` holds
the same dataframe after the call (also when the call raises), and on
success the returned reference holds exactly the pure `clean_data` result
of the input. -/
theorem clean_data_no_mutation (h : Heap) (r : Nat) (hr : r < h.length) :
    (cleanDataHeap h r).fst[r]? = h[r]? ∧
    ∀ c, (cleanDataHeap h r).snd = .ok c →
      ∃ out, clean_data (h.getD r []) = .ok out ∧
        (cleanDataHeap h r).fst[c]? = some out := by
  by_cases hsrc : ((h.getD r []).find? fun c => c.fst = "source").isSome = true
  · cases hbin : binarizeTarget (dropSource (h.getD r [])) with
    | error e =>
      have heq : cleanDataHeap h r =
          ((h ++ [h.getD r []]) ++ [dropSource (h.getD r [])], .error e) := by
        simp only [cleanDataHeap, if_pos hsrc, hbin]
      rw [heq]
      refine ⟨?_, fun c hc => by cases hc⟩
      rw [getElem?_append_left_of_lt _ (by simp; omega),
        getElem?_append_left_of_lt _ hr]
    | ok v3 =>
      have heq : cleanDataHeap h r =
          ((((h ++ [h.getD r []]) ++ [dropSource (h.getD r [])]).set
              (h.length + 1) v3 ++
            [v3.map fun c => (c.fst, c.snd.map replaceSentinel)]).set
            (h.length + 2)
            ((v3.map fun c => (c.fst, c.snd.map replaceSentinel)).map fun c =>
              if c.fst = "target" then c
              else (c.fst, c.snd.map toNumericCell)),
           .ok (h.length + 2)) := by
        simp only [cleanDataHeap, if_pos hsrc, hbin, List.length_append,
          List.length_set, List.length_singleton]
      rw [heq]
      constructor
      · rw [List.getElem?_set_ne (by omega),
          getElem?_append_left_of_lt _ (by simp; omega),
          List.getElem?_set_ne (by omega),
          getElem?_append_left_of_lt _ (by simp; omega),
          getElem?_append_left_of_lt _ hr]
      · intro c hc
        simp only [Except.ok.injEq] at hc
        subst hc
        refine ⟨(v3.map fun c => (c.fst, c.snd.map replaceSentinel)).map
          fun c => if c.fst = "target" then c
            else (c.fst, c.snd.map toNumericCell), ?_, ?_⟩
        · unfold clean_data
          rw [if_pos hsrc, hbin]
        · rw [List.getElem?_set]
          rw [if_pos rfl, if_pos (by simp)]
  · cases hbin : binarizeTarget (h.getD r []) with
    | error e =>
      have heq : cleanDataHeap h r = (h ++ [h.getD r []], .error e) := by
        simp only [cleanDataHeap, if_neg hsrc, hbin]
      rw [heq]
      refine ⟨getElem?_append_left_of_lt _ hr, fun c hc => by cases hc⟩
    | ok v3 =>
      have heq : cleanDataHeap h r =
          (((h ++ [h.getD r []]).set h.length v3 ++
            [v3.map fun c => (c.fst, c.snd.map replaceSentinel)]).set
            (h.length + 1)
            ((v3.map fun c => (c.fst, c.snd.map replaceSentinel)).map fun c =>
              if c.fst = "target" then c
              else (c.fst, c.snd.map toNumericCell)),
           .ok (h.length + 1)) := by
        simp only [cleanDataHeap, if_neg hsrc, hbin, List.length_append,
          List.length_set, List.length_singleton]
      rw [heq]
      constructor
      · rw [List.getElem?_set_ne (by omega),
          getElem?_append_left_of_lt _ (by simp; omega),
          List.getElem?_set_ne (by omega),
          getElem?_append_left_of_lt _ hr]
      · intro c hc
        simp only [Except.ok.injEq] at hc
        subst hc
        refine ⟨(v3.map fun c => (c.fst, c.snd.map replaceSentinel)).map
          fun c => if c.fst = "target" then c
            else (c.fst, c.snd.map toNumericCell), ?_, ?_⟩
        · unfold clean_data
          rw [if_neg hsrc, hbin]
        · rw [List.getElem?_set]
          rw [if_pos rfl, if_pos (by simp)]

/-- C9 witness: on a one-frame heap holding `demoDf`, the input slot is
untouched and the result slot holds the pure cleaning result. -/
theorem clean_data_no_mutation_witness :
    (cleanDataHeap [demoDf] 0).fst[0]? = some demoDf ∧
      ∃ out, clean_data demoDf = .ok out ∧
        (cleanDataHeap [demoDf] 0).fst[3]? = some out := by
  have h := clean_data_no_mutation [demoDf] 0 (by decide)
  refine ⟨h.1, ?_⟩
  have h2 := h.2 3 (by with_unfolding_all decide)
  simpa using h2

end HeartPipeline
